import Mathlib

/-! Formal model of the session event monitor of `agent/entrypoint.py`
(Claude Context Optimizer).  Python strings are modelled as Lean `String`s,
and the Python code-point operations the script uses (slicing, `strip`,
`lower`, substring membership, `len`) are implemented character-wise over
`String.data`, matching Python semantics on the ASCII data involved while
staying kernel-executable. -/

namespace Contextor

/-- ANSI red color code (`Colors.RED` in the source). -/
def Colors.RED : String := "\x1B[0;31m"

/-- ANSI reset code (`Colors.NC` in the source). -/
def Colors.NC : String := "\x1B[0m"

/-- Python `s[:n]` on a `str`: the first `n` code points. -/
def pyTake (s : String) (n : Nat) : String := String.mk (s.data.take n)

/-- Python `len(s)` on a `str`: the number of code points. -/
def pyLen (s : String) : Nat := s.data.length

/-- Whitespace stripping on both ends of a character list. -/
def stripChars (l : List Char) : List Char :=
  ((l.dropWhile Char.isWhitespace).reverse.dropWhile Char.isWhitespace).reverse

/-- Python `s.strip()`. -/
def pyStrip (s : String) : String := String.mk (stripChars s.data)

/-- Python `s.lower()` (the script only lowercases ASCII text). -/
def pyLower (s : String) : String := String.mk (s.data.map Char.toLower)

/-- Decides whether the first list is a leading segment of the second. -/
def leadSeg : List Char → List Char → Bool
  | [], _ => true
  | _ :: _, [] => false
  | a :: as, b :: bs => a == b && leadSeg as bs

/-- Decides whether `needle` occurs as a contiguous run inside the second
list. -/
def subOccurs (needle : List Char) : List Char → Bool
  | [] => needle.isEmpty
  | b :: bs => leadSeg needle (b :: bs) || subOccurs needle bs

/-- Python `k in s` for strings: substring membership. -/
def pyContains (s k : String) : Bool := subOccurs k.data s.data

/-- Content blocks of an `AssistantMessage` as consumed by the monitor loop:
`ToolUseBlock` (tool name and input mapping), `ToolResultBlock` (whose
`is_error` is `none` when the attribute is absent, making `hasattr` false),
and `TextBlock`. -/
inductive Block where
  | toolUse (name : String) (input : List (String × String))
  | toolResult (is_error : Option Bool)
  | text (text : String)
deriving DecidableEq

/-- Python `block.input.get(key, dflt)`. -/
def getInput (input : List (String × String)) (key dflt : String) : String :=
  match input with
  | [] => dflt
  | (k, v) :: rest => if k = key then v else getInput rest key dflt

/-- The four append-only sequences of `ProgressTracker`
(`entrypoint.py` lines 53-73). -/
structure ProgressTracker where
  files_read : List String
  files_written : List String
  commands_run : List String
  searches_performed : List String
deriving DecidableEq

/-- Mutable state of the monitoring loop: the tracker, the `tools_used` set,
the `claude_reasoning_count` counter, and the log lines emitted so far.  Each
line is modelled as the message string passed to `log`, without the
wall-clock timestamp prefix that `log` prepends. -/
structure MonitorState where
  tracker : ProgressTracker
  tools_used : Finset String
  claude_reasoning_count : Nat
  lines : List String
deriving DecidableEq

/-- State at the start of the monitoring loop (`entrypoint.py` lines
214-215, 252). -/
def initState : MonitorState := ⟨⟨[], [], [], []⟩, ∅, 0, []⟩

/-- Keyword list of the reasoning display condition (`entrypoint.py`
lines 301-311). -/
def keywords : List String :=
  ["analysis", "recommendations", "found", "creating", "complete",
   "examining", "checking", "writing", "generating"]

/-- Processing of one content block of an `AssistantMessage`
(`entrypoint.py` lines 257-317). -/
def processBlock (st : MonitorState) (b : Block) : MonitorState :=
  match b with
  | .toolUse tool_name input =>
    let st := { st with tools_used := insert tool_name st.tools_used }
    if tool_name = "Read" then
      let file_path := getInput input "file_path" ""
      { st with
        lines := st.lines ++ ["📖 Reading: " ++ file_path],
        tracker := { st.tracker with
          files_read := st.tracker.files_read ++ [file_path] } }
    else if tool_name = "Write" ∨ tool_name = "MultiEdit" ∨ tool_name = "Edit" then
      let file_path := getInput input "file_path" ""
      { st with
        lines := st.lines ++ ["✍️  Writing: " ++ file_path],
        tracker := { st.tracker with
          files_written := st.tracker.files_written ++ [file_path] } }
    else if tool_name = "Bash" then
      let command := pyTake (getInput input "command" "") 100
      { st with
        lines := st.lines ++ ["⚡ Running: " ++ command ++ "..."],
        tracker := { st.tracker with
          commands_run := st.tracker.commands_run ++ [command] } }
    else if tool_name = "Grep" then
      let pattern := getInput input "pattern" ""
      let path := getInput input "path" "."
      { st with
        lines := st.lines ++ ["🔍 Searching \x27" ++ pattern ++ "\x27 in " ++ path],
        tracker := { st.tracker with
          searches_performed := st.tracker.searches_performed ++ [pattern] } }
    else if tool_name = "Glob" then
      let pattern := getInput input "pattern" ""
      { st with
        lines := st.lines ++ ["📁 Finding files: " ++ pattern],
        tracker := { st.tracker with
          searches_performed := st.tracker.searches_performed ++ [pattern] } }
    else
      { st with lines := st.lines ++ ["🛠️  Using tool: " ++ tool_name] }
  | .toolResult is_error =>
    if is_error = some true then
      { st with lines := st.lines ++
          [Colors.RED ++ "❌ Tool execution failed" ++ Colors.NC] }
    else st
  | .text s =>
    if pyStrip s = "" then st
    else
      let text := pyStrip s
      let cnt := st.claude_reasoning_count + 1
      if cnt % 2 = 0 ∨ (keywords.any fun k => pyContains (pyLower text) k) = true then
        if pyLen text > 100 then
          { st with claude_reasoning_count := cnt,
                    lines := st.lines ++ ["💭 Claude: " ++ pyTake text 100 ++ "..."] }
        else
          { st with claude_reasoning_count := cnt,
                    lines := st.lines ++ ["💭 Claude: " ++ text] }
      else { st with claude_reasoning_count := cnt }

/-- Processing of a whole block list, left to right
(the inner `for block in message.content` loop). -/
def processBlocks (st : MonitorState) (bs : List Block) : MonitorState :=
  bs.foldl processBlock st

/-- Messages of the response stream: only `AssistantMessage` carries content
blocks; every other message kind is ignored by the loop. -/
inductive Message where
  | assistant (content : List Block)
  | other

/-- Processing of one stream message (`entrypoint.py` lines 254-256). -/
def processMessage (st : MonitorState) (m : Message) : MonitorState :=
  match m with
  | .assistant content => processBlocks st content
  | .other => st

/-- Processing of the whole response stream
(the `async for message in client.receive_response()` loop). -/
def processStream (st : MonitorState) (ms : List Message) : MonitorState :=
  ms.foldl processMessage st

/-- Terminal outcomes of one run.  `reportReadError` models the branch at
`entrypoint.py` lines 359-363 where the recommendations file exists but
reading it raised. -/
inductive Outcome where
  | success
  | noReportProduced
  | reportReadError
  | sessionToolingMissing
  | sessionProcessFailed
deriving DecidableEq

/-- Result of the connection step (`await client.connect()` inside the
`try` block): `CLINotFoundError` and `ProcessError` are the two caught
error kinds (`entrypoint.py` lines 371-377). -/
inductive ConnectResult where
  | ok
  | cliNotFound (detail : String)
  | processError (detail : String)
deriving DecidableEq

/-- Report-file check after the stream ends (`entrypoint.py` lines
341-369): `reportExists` is `recommendations_file.exists()` and
`readResult` is the result of `recommendations_file.read_text()`
(`none` when reading raises).  Returns the outcome with the process exit
status. -/
def finalize (reportExists : Bool) (readResult : Option String) : Outcome × Nat :=
  if reportExists then
    match readResult with
    | some _ => (Outcome.success, 0)
    | none => (Outcome.reportReadError, 1)
  else (Outcome.noReportProduced, 1)

/-- Observable result of one whole run: final monitor state, outcome,
process exit status, and the error line logged by an exception handler
(when one fired). -/
structure RunResult where
  state : MonitorState
  outcome : Outcome
  exitCode : Nat
  errorLine : Option String
deriving DecidableEq

/-- Whole `try` block of `main`: a failing `connect()` makes the exception
propagate to the handlers at lines 371-377 before any event of the stream is
consumed, while a successful connection streams all messages and then
finalizes against the report file. -/
def runSession (conn : ConnectResult) (stream : List Message)
    (reportExists : Bool) (readResult : Option String) : RunResult :=
  match conn with
  | .cliNotFound detail =>
    ⟨initState, Outcome.sessionToolingMissing, 1,
      some (Colors.RED ++ "❌ Claude CLI not found: " ++ detail ++ Colors.NC)⟩
  | .processError detail =>
    ⟨initState, Outcome.sessionProcessFailed, 1,
      some (Colors.RED ++ "❌ Claude process error: " ++ detail ++ Colors.NC)⟩
  | .ok =>
    let st := processStream initState stream
    let r := finalize reportExists readResult
    ⟨st, r.1, r.2, none⟩

/-- Tests whether a block is a `ToolUseBlock` classified `FileRead`. -/
def isFileRead : Block → Bool
  | .toolUse n _ => n == "Read"
  | _ => false

/-- Tests whether a block is a `ToolUseBlock` classified `FileWrite`. -/
def isFileWrite : Block → Bool
  | .toolUse n _ => n == "Write" || n == "MultiEdit" || n == "Edit"
  | _ => false

/-- Tests whether a block is a `ToolUseBlock` classified `CommandRun`. -/
def isCommandRun : Block → Bool
  | .toolUse n _ => n == "Bash"
  | _ => false

/-- Tests whether a block is a `ToolUseBlock` classified `Search`. -/
def isSearch : Block → Bool
  | .toolUse n _ => n == "Grep" || n == "Glob"
  | _ => false

/-- Tool names of all `ToolUseBlock`s of a block list, in order. -/
def toolNames (bs : List Block) : List String :=
  bs.filterMap fun b => match b with
    | .toolUse n _ => some n
    | _ => none

/-- Effect of one block on the length of `files_read`. -/
theorem files_read_processBlock (st : MonitorState) (b : Block) :
    (processBlock st b).tracker.files_read.length
      = st.tracker.files_read.length + (if isFileRead b then 1 else 0) := by
  cases b with
  | toolUse n input =>
    simp only [processBlock, isFileRead]
    split_ifs <;> (try casesm* _ ∨ _) <;> first | rfl | simp_all
  | toolResult e =>
    simp only [processBlock, isFileRead]
    split_ifs <;> simp_all
  | text s =>
    simp only [processBlock, isFileRead]
    split_ifs <;> simp_all

/-- Effect of one block on the length of `files_written`. -/
theorem files_written_processBlock (st : MonitorState) (b : Block) :
    (processBlock st b).tracker.files_written.length
      = st.tracker.files_written.length + (if isFileWrite b then 1 else 0) := by
  cases b with
  | toolUse n input =>
    simp only [processBlock, isFileWrite]
    split_ifs <;> (try casesm* _ ∨ _) <;> first | rfl | simp_all
  | toolResult e =>
    simp only [processBlock, isFileWrite]
    split_ifs <;> simp_all
  | text s =>
    simp only [processBlock, isFileWrite]
    split_ifs <;> simp_all

/-- Effect of one block on the length of `commands_run`. -/
theorem commands_run_processBlock (st : MonitorState) (b : Block) :
    (processBlock st b).tracker.commands_run.length
      = st.tracker.commands_run.length + (if isCommandRun b then 1 else 0) := by
  cases b with
  | toolUse n input =>
    simp only [processBlock, isCommandRun]
    split_ifs <;> (try casesm* _ ∨ _) <;> first | rfl | simp_all
  | toolResult e =>
    simp only [processBlock, isCommandRun]
    split_ifs <;> simp_all
  | text s =>
    simp only [processBlock, isCommandRun]
    split_ifs <;> simp_all

/-- Effect of one block on the length of `searches_performed`. -/
theorem searches_processBlock (st : MonitorState) (b : Block) :
    (processBlock st b).tracker.searches_performed.length
      = st.tracker.searches_performed.length + (if isSearch b then 1 else 0) := by
  cases b with
  | toolUse n input =>
    simp only [processBlock, isSearch]
    split_ifs <;> (try casesm* _ ∨ _) <;> first | rfl | simp_all
  | toolResult e =>
    simp only [processBlock, isSearch]
    split_ifs <;> simp_all
  | text s =>
    simp only [processBlock, isSearch]
    split_ifs <;> simp_all

/-- Counting invariant for `files_read`, over any start state. -/
theorem files_read_processBlocks (bs : List Block) : ∀ st : MonitorState,
    (processBlocks st bs).tracker.files_read.length
      = st.tracker.files_read.length + bs.countP isFileRead := by
  induction bs with
  | nil => intro st; simp [processBlocks]
  | cons b bs ih =>
    intro st
    simp only [processBlocks, List.foldl_cons] at *
    rw [ih, files_read_processBlock, List.countP_cons]
    cases hb : isFileRead b <;> simp [hb] <;> omega

/-- Counting invariant for `files_written`, over any start state. -/
theorem files_written_processBlocks (bs : List Block) : ∀ st : MonitorState,
    (processBlocks st bs).tracker.files_written.length
      = st.tracker.files_written.length + bs.countP isFileWrite := by
  induction bs with
  | nil => intro st; simp [processBlocks]
  | cons b bs ih =>
    intro st
    simp only [processBlocks, List.foldl_cons] at *
    rw [ih, files_written_processBlock, List.countP_cons]
    cases hb : isFileWrite b <;> simp [hb] <;> omega

/-- Counting invariant for `commands_run`, over any start state. -/
theorem commands_run_processBlocks (bs : List Block) : ∀ st : MonitorState,
    (processBlocks st bs).tracker.commands_run.length
      = st.tracker.commands_run.length + bs.countP isCommandRun := by
  induction bs with
  | nil => intro st; simp [processBlocks]
  | cons b bs ih =>
    intro st
    simp only [processBlocks, List.foldl_cons] at *
    rw [ih, commands_run_processBlock, List.countP_cons]
    cases hb : isCommandRun b <;> simp [hb] <;> omega

/-- Counting invariant for `searches_performed`, over any start state. -/
theorem searches_processBlocks (bs : List Block) : ∀ st : MonitorState,
    (processBlocks st bs).tracker.searches_performed.length
      = st.tracker.searches_performed.length + bs.countP isSearch := by
  induction bs with
  | nil => intro st; simp [processBlocks]
  | cons b bs ih =>
    intro st
    simp only [processBlocks, List.foldl_cons] at *
    rw [ih, searches_processBlock, List.countP_cons]
    cases hb : isSearch b <;> simp [hb] <;> omega

/-- C2: after processing any finite sequence of events from the initial
state, the lengths of `files_read`, `files_written`, `commands_run` and
`searches_performed` equal the number of `ToolUseBlock` events whose tool
name is `Read`, is in `{Write, MultiEdit, Edit}`, is `Bash`, and is in
`{Grep, Glob}`, respectively. -/
theorem counting_invariant (bs : List Block) :
    (processBlocks initState bs).tracker.files_read.length = bs.countP isFileRead
    ∧ (processBlocks initState bs).tracker.files_written.length = bs.countP isFileWrite
    ∧ (processBlocks initState bs).tracker.commands_run.length = bs.countP isCommandRun
    ∧ (processBlocks initState bs).tracker.searches_performed.length = bs.countP isSearch := by
  refine ⟨?_, ?_, ?_, ?_⟩
  · simpa [initState] using files_read_processBlocks bs initState
  · simpa [initState] using files_written_processBlocks bs initState
  · simpa [initState] using commands_run_processBlocks bs initState
  · simpa [initState] using searches_processBlocks bs initState

/-- C7: a `ToolResultBlock` never mutates the tracker, the `tools_used` set
or the reasoning counter; when `is_error` is true exactly one failure line
is logged, and when `is_error` is false the state is entirely unchanged. -/
theorem tool_result_effect (st : MonitorState) (e : Option Bool) :
    (processBlock st (.toolResult e)).tracker = st.tracker
    ∧ (processBlock st (.toolResult e)).tools_used = st.tools_used
    ∧ (processBlock st (.toolResult e)).claude_reasoning_count
        = st.claude_reasoning_count
    ∧ (processBlock st (.toolResult (some true))).lines
        = st.lines ++ [Colors.RED ++ "❌ Tool execution failed" ++ Colors.NC]
    ∧ processBlock st (.toolResult (some false)) = st := by
  refine ⟨?_, ?_, ?_, rfl, rfl⟩ <;>
    (simp only [processBlock]; split_ifs <;> rfl)

/-- C8: a `TextBlock` whose text strips to the empty string leaves the
state entirely unchanged: no log line, no stats mutation, no reasoning
counter increment. -/
theorem blank_reasoning_ignored (st : MonitorState) (s : String)
    (h : pyStrip s = "") : processBlock st (.text s) = st := by
  simp [processBlock, h]

/-- Witness for `blank_reasoning_ignored` at a concrete whitespace text. -/
theorem blank_reasoning_ignored_witness :
    pyStrip "  " = "" ∧ processBlock initState (Block.text "  ") = initState :=
  ⟨by decide, blank_reasoning_ignored initState "  " (by decide)⟩

/-- C9: a `ToolUseBlock` whose tool name is outside the fixed table only
inserts the name into `tools_used` and logs a generic line; the tracker is
untouched. -/
theorem generic_tool_effect (st : MonitorState) (tool_name : String)
    (input : List (String × String))
    (h : tool_name ∉ (["Read", "Write", "MultiEdit", "Edit", "Bash", "Grep", "Glob"] : List String)) :
    processBlock st (.toolUse tool_name input)
      = { st with tools_used := insert tool_name st.tools_used,
                  lines := st.lines ++ ["🛠️  Using tool: " ++ tool_name] } := by
  simp only [List.mem_cons, List.not_mem_nil, or_false, not_or] at h
  obtain ⟨h1, h2, h3, h4, h5, h6, h7⟩ := h
  simp only [processBlock]
  split_ifs <;> (try casesm* _ ∨ _) <;> first | rfl | simp_all

/-- Witness for `generic_tool_effect` at the `TodoWrite` tool. -/
theorem generic_tool_effect_witness :
    processBlock initState (Block.toolUse "TodoWrite" [])
      = { initState with tools_used := insert "TodoWrite" initState.tools_used,
                         lines := initState.lines ++ ["🛠️  Using tool: " ++ "TodoWrite"] } :=
  generic_tool_effect initState "TodoWrite" [] (by decide)

/-- C10: a `ToolResultBlock` whose `is_error` attribute is absent is
processed exactly like a successful result: no failure line, no mutation,
and no error is raised (the processing function is total). -/
theorem missing_is_error_like_success (st : MonitorState) :
    processBlock st (.toolResult none) = st
    ∧ processBlock st (.toolResult none) = processBlock st (.toolResult (some false)) :=
  ⟨rfl, rfl⟩

/-- Effect of one block on the `tools_used` set: a `ToolUseBlock` always
inserts its tool name, every other block leaves the set unchanged. -/
theorem tools_used_processBlock (st : MonitorState) (b : Block) :
    (processBlock st b).tools_used
      = match b with
        | .toolUse n _ => insert n st.tools_used
        | _ => st.tools_used := by
  cases b with
  | toolUse n input =>
    simp only [processBlock]
    split_ifs <;> rfl
  | toolResult e =>
    simp only [processBlock]
    split_ifs <;> rfl
  | text s =>
    simp only [processBlock]
    split_ifs <;> rfl

/-- The `tools_used` set after a block list is the start set united with
the finite set of the tool names occurring in the list. -/
theorem tools_used_processBlocks (bs : List Block) : ∀ st : MonitorState,
    (processBlocks st bs).tools_used = st.tools_used ∪ (toolNames bs).toFinset := by
  induction bs with
  | nil => intro st; simp [processBlocks, toolNames]
  | cons b bs ih =>
    intro st
    simp only [processBlocks, List.foldl_cons] at *
    rw [ih, tools_used_processBlock]
    cases b with
    | toolUse n input =>
      simp [toolNames, List.filterMap_cons, Finset.insert_union, Finset.union_insert]
    | toolResult e => simp [toolNames, List.filterMap_cons]
    | text s => simp [toolNames, List.filterMap_cons]

/-- C5: after processing any finite event sequence, `tools_used` equals the
set of distinct tool names across its `ToolUseBlock`s; permuting the
sequence (which also absorbs repetition counts) leaves the set unchanged. -/
theorem tools_used_is_distinct_names (bs bs' : List Block) (h : bs.Perm bs') :
    (processBlocks initState bs).tools_used = (toolNames bs).toFinset
    ∧ (processBlocks initState bs).tools_used
        = (processBlocks initState bs').tools_used := by
  constructor
  · simpa [initState] using tools_used_processBlocks bs initState
  · rw [tools_used_processBlocks bs initState, tools_used_processBlocks bs' initState]
    have hp : (toolNames bs).Perm (toolNames bs') := List.Perm.filterMap _ h
    rw [List.toFinset_eq_of_perm _ _ hp]

/-- Witness for `tools_used_is_distinct_names` on a two-event stream and
its transposition. -/
theorem tools_used_is_distinct_names_witness :
    (processBlocks initState [Block.toolUse "Bash" [], Block.toolResult none]).tools_used
      = (toolNames [Block.toolUse "Bash" [], Block.toolResult none]).toFinset
    ∧ (processBlocks initState [Block.toolUse "Bash" [], Block.toolResult none]).tools_used
      = (processBlocks initState [Block.toolResult none, Block.toolUse "Bash" []]).tools_used :=
  tools_used_is_distinct_names _ _ (List.Perm.swap _ _ _)

/-- C1 (amended): a Bash `ToolUseBlock` appends the command truncated to
its first 100 characters to `commands_run`, and the logged line carries the
same truncated string. -/
theorem bash_command_truncated (st : MonitorState) (cmd : String) :
    (processBlock st (.toolUse "Bash" [("command", cmd)])).tracker.commands_run
      = st.tracker.commands_run ++ [pyTake cmd 100]
    ∧ (processBlock st (.toolUse "Bash" [("command", cmd)])).lines
      = st.lines ++ ["⚡ Running: " ++ pyTake cmd 100 ++ "..."] :=
  ⟨rfl, rfl⟩

/-- C1 counterexample: for a 150-character command the entry recorded in
`commands_run` is the 100-character truncation, not the full command. -/
theorem bash_command_truncated_counterexample :
    (processBlock initState (.toolUse "Bash"
        [("command", String.mk (List.replicate 150 'x'))])).tracker.commands_run
      ≠ [String.mk (List.replicate 150 'x')]
    ∧ (processBlock initState (.toolUse "Bash"
        [("command", String.mk (List.replicate 150 'x'))])).tracker.commands_run
      = [String.mk (List.replicate 100 'x')] := by
  constructor
  · decide
  · decide

/-- C3 (amended): after a normally completed stream, a report file that
exists and is readable yields outcome `success` with exit status 0; one
that exists but cannot be read yields a non-zero exit status; an absent
report file yields outcome `noReportProduced` with a non-zero exit
status. -/
theorem report_check_outcomes (stream : List Message) (content : String)
    (rr : Option String) :
    (runSession .ok stream true (some content)).outcome = Outcome.success
    ∧ (runSession .ok stream true (some content)).exitCode = 0
    ∧ (runSession .ok stream true none).exitCode = 1
    ∧ (runSession .ok stream false rr).outcome = Outcome.noReportProduced
    ∧ (runSession .ok stream false rr).exitCode = 1 :=
  ⟨rfl, rfl, rfl, rfl, rfl⟩

/-- C3 counterexample: with the stream ended normally and the report file
existing but unreadable, the run ends with outcome `reportReadError` and
exit status 1, not with outcome `success` and exit status 0. -/
theorem report_check_outcomes_counterexample :
    (runSession .ok [] true none).outcome = Outcome.reportReadError
    ∧ (runSession .ok [] true none).exitCode = 1
    ∧ ¬((runSession .ok [] true none).outcome = Outcome.success
        ∧ (runSession .ok [] true none).exitCode = 0) := by
  refine ⟨rfl, rfl, fun hc => ?_⟩
  exact absurd hc.1 (by decide)

/-- C6: a failing connection step ends the run with exit status 1 and the
monitor state still initial (no event classified): `CLINotFoundError`
yields outcome `sessionToolingMissing`, `ProcessError` yields
`sessionProcessFailed`, and for any detail text the two logged error lines
differ. -/
theorem connect_failure (detail : String) (stream : List Message)
    (re : Bool) (rr : Option String) :
    runSession (.cliNotFound detail) stream re rr
      = ⟨initState, Outcome.sessionToolingMissing, 1,
          some (Colors.RED ++ "❌ Claude CLI not found: " ++ detail ++ Colors.NC)⟩
    ∧ runSession (.processError detail) stream re rr
      = ⟨initState, Outcome.sessionProcessFailed, 1,
          some (Colors.RED ++ "❌ Claude process error: " ++ detail ++ Colors.NC)⟩
    ∧ (Colors.RED ++ "❌ Claude CLI not found: " ++ detail ++ Colors.NC)
      ≠ (Colors.RED ++ "❌ Claude process error: " ++ detail ++ Colors.NC) := by
  refine ⟨rfl, rfl, fun h => ?_⟩
  have h2 := congrArg String.data h
  simp only [String.data_append] at h2
  have h3 := List.append_cancel_right (List.append_cancel_right h2)
  have h4 := List.append_cancel_left h3
  exact absurd h4 (by decide)

/-- Witness for `connect_failure` at a concrete detail text. -/
theorem connect_failure_witness :
    runSession (ConnectResult.cliNotFound "e") [] false none
      = ⟨initState, Outcome.sessionToolingMissing, 1,
          some (Colors.RED ++ "❌ Claude CLI not found: " ++ "e" ++ Colors.NC)⟩
    ∧ runSession (ConnectResult.processError "e") [] false none
      = ⟨initState, Outcome.sessionProcessFailed, 1,
          some (Colors.RED ++ "❌ Claude process error: " ++ "e" ++ Colors.NC)⟩
    ∧ (Colors.RED ++ "❌ Claude CLI not found: " ++ "e" ++ Colors.NC)
      ≠ (Colors.RED ++ "❌ Claude process error: " ++ "e" ++ Colors.NC) :=
  connect_failure "e" [] false none

/-- Full effect of a non-blank `TextBlock`: the reasoning counter advances
by one, tracker and `tools_used` stay, and exactly one line is logged iff
the display condition (even ordinal or keyword hit) holds. -/
theorem text_block_spec (st : MonitorState) (s : String) (h : ¬ pyStrip s = "") :
    (processBlock st (.text s)).claude_reasoning_count = st.claude_reasoning_count + 1
    ∧ (processBlock st (.text s)).tracker = st.tracker
    ∧ (processBlock st (.text s)).tools_used = st.tools_used
    ∧ (processBlock st (.text s)).lines.length
      = st.lines.length
        + (if (st.claude_reasoning_count + 1) % 2 = 0
              ∨ (keywords.any fun k => pyContains (pyLower (pyStrip s)) k) = true
           then 1 else 0) := by
  refine ⟨?_, ?_, ?_, ?_⟩ <;>
    (simp only [processBlock, if_neg h]; split_ifs <;> simp_all)

/-- Number of displayed lines over a keyword-free, non-blank reasoning
stream: the evens among ordinals `c+1 … c+N`. -/
theorem reasoning_sampling_aux (ts : List String) : ∀ st : MonitorState,
    (∀ t ∈ ts, ¬ pyStrip t = ""
      ∧ (keywords.any fun k => pyContains (pyLower (pyStrip t)) k) = false) →
    (processBlocks st (ts.map Block.text)).lines.length
      = st.lines.length
        + ((st.claude_reasoning_count + ts.length) / 2
            - st.claude_reasoning_count / 2) := by
  induction ts with
  | nil => intro st _; simp [processBlocks]
  | cons t ts ih =>
    intro st h
    have ht := (h t (List.mem_cons_self t ts)).1
    have hk := (h t (List.mem_cons_self t ts)).2
    have hrest := fun x hx => h x (List.mem_cons_of_mem t hx)
    obtain ⟨hc, -, -, hl⟩ := text_block_spec st t ht
    simp only [List.map_cons, processBlocks, List.foldl_cons]
    have ih2 := ih (processBlock st (.text t)) hrest
    simp only [processBlocks] at ih2
    rw [ih2, hc, hl, hk]
    simp only [List.length_cons]
    by_cases hp : (st.claude_reasoning_count + 1) % 2 = 0 <;> simp [hp] <;> omega

/-- C4: a non-blank `TextBlock` is displayed iff its 1-indexed ordinal (the
counter value after its increment) is even or its lowercased text contains
one of the nine keywords; a keyword-free non-blank reasoning stream of
length `N` displays exactly `⌊N/2⌋` lines; and a text containing
`complete` in any case is displayed even at an odd ordinal. -/
theorem reasoning_display_rule :
    (∀ (st : MonitorState) (s : String), ¬ pyStrip s = "" →
      ((processBlock st (.text s)).lines.length = st.lines.length + 1 ↔
        (st.claude_reasoning_count + 1) % 2 = 0
        ∨ (keywords.any fun k => pyContains (pyLower (pyStrip s)) k) = true))
    ∧ (∀ ts : List String,
        (∀ t ∈ ts, ¬ pyStrip t = ""
          ∧ (keywords.any fun k => pyContains (pyLower (pyStrip t)) k) = false) →
        (processBlocks initState (ts.map Block.text)).lines.length = ts.length / 2)
    ∧ (∀ (st : MonitorState) (s : String), ¬ pyStrip s = "" →
        pyContains (pyLower (pyStrip s)) "complete" = true →
        (processBlock st (.text s)).lines.length = st.lines.length + 1) := by
  refine ⟨?_, ?_, ?_⟩
  · intro st s h
    obtain ⟨-, -, -, hl⟩ := text_block_spec st s h
    rw [hl]
    split_ifs with hcond
    · exact iff_of_true rfl hcond
    · exact iff_of_false (by omega) hcond
  · intro ts h
    rw [reasoning_sampling_aux ts initState h]
    simp [initState]
  · intro st s h hcomp
    obtain ⟨-, -, -, hl⟩ := text_block_spec st s h
    have hany : (keywords.any fun k => pyContains (pyLower (pyStrip s)) k) = true :=
      List.any_eq_true.mpr ⟨"complete", by decide, hcomp⟩
    rw [hl, if_pos (Or.inr hany)]

/-- Witness for `reasoning_display_rule` at concrete reasoning texts. -/
theorem reasoning_display_rule_witness :
    ((processBlock initState (Block.text "hello")).lines.length
        = initState.lines.length + 1 ↔
      (initState.claude_reasoning_count + 1) % 2 = 0
      ∨ (keywords.any fun k => pyContains (pyLower (pyStrip "hello")) k) = true)
    ∧ (processBlocks initState (["one two", "three four"].map Block.text)).lines.length
        = (["one two", "three four"] : List String).length / 2
    ∧ (processBlock initState (Block.text "Task Complete")).lines.length
        = initState.lines.length + 1 :=
  ⟨reasoning_display_rule.1 initState "hello" (by decide),
   reasoning_display_rule.2.1 ["one two", "three four"] (by decide),
   reasoning_display_rule.2.2 initState "Task Complete" (by decide) (by decide)⟩

end Contextor
